import Mathlib

/-!
Verification of the sglang `srt/server.py` gateway against its
natural-language specification.

The Python source is shallowly embedded: strings are lists of characters
(`Str`), optional values are `Option`, Python falsiness of strings is made
explicit, fallible handler code returns `Except`, and calls to external
collaborators (detokenizer, chat-template renderer, generation backend,
process table) are passed in as explicit function parameters or recorded
as action traces.
-/

namespace SGLang

/-- Python strings are modelled as lists of characters; slicing
`text[len(buf):]` becomes `List.drop`, and `+` becomes `++`. -/
abbrev Str := List Char

/-! ### Streamed completions (`v1_completions` / `v1_chat_completions`, the
inner `gnerate_stream_resp` loops)

The completions stream loop keeps `stream_buffer` (initially `""`) and for
each upstream partial result `content` computes
`text = content["text"]`, then, when `stream_buffer` is empty (the first
chunk) and `request.echo` is set, `text = request.prompt + text`; it emits
`delta = text[len(stream_buffer):]` and sets `stream_buffer = content["text"]`.
-/

/-- One iteration of the `v1_completions` stream loop: given the echo flag,
the request prompt, the current `stream_buffer` and the upstream cumulative
text, return the emitted delta and the new `stream_buffer`. -/
def completionsStreamStep (echo : Bool) (prompt stream_buffer content_text : Str) :
    Str × Str :=
  let text := if stream_buffer = [] ∧ echo = true then prompt ++ content_text else content_text
  (text.drop stream_buffer.length, content_text)

/-- The list of deltas emitted by the `v1_completions` stream loop
(`gnerate_stream_resp`) over a sequence of upstream cumulative texts,
starting from a given `stream_buffer`. -/
def completionsStreamDeltas (echo : Bool) (prompt : Str) : Str → List Str → List Str
  | _, [] => []
  | buf, c :: cs =>
    (completionsStreamStep echo prompt buf c).1 ::
      completionsStreamDeltas echo prompt (completionsStreamStep echo prompt buf c).2 cs

/-- One iteration of the `v1_chat_completions` stream loop: emits
`delta = text[len(stream_buffer):]` and sets `stream_buffer = text`. -/
def chatStreamStep (stream_buffer content_text : Str) : Str × Str :=
  (content_text.drop stream_buffer.length, content_text)

/-- The list of content deltas emitted by the `v1_chat_completions` stream
loop over a sequence of upstream cumulative texts. -/
def chatStreamDeltas : Str → List Str → List Str
  | _, [] => []
  | buf, c :: cs => (chatStreamStep buf c).1 :: chatStreamDeltas (chatStreamStep buf c).2 cs

/-- The upstream invariant: starting from `prev`, each successive cumulative
text extends the one before it by appending a suffix. -/
def ExtendsFrom : Str → List Str → Prop
  | _, [] => True
  | prev, c :: cs => (∃ t, c = prev ++ t) ∧ ExtendsFrom c cs

theorem chatStreamDeltas_eq_zipWith (buf : Str) (texts : List Str) :
    chatStreamDeltas buf texts
      = List.zipWith (fun cur prev => cur.drop prev.length) texts (buf :: texts) := by
  induction texts generalizing buf with
  | nil => rfl
  | cons c cs ih => simp [chatStreamDeltas, chatStreamStep, ih]

theorem completionsStreamDeltas_false_eq_chat (prompt buf : Str) (texts : List Str) :
    completionsStreamDeltas false prompt buf texts = chatStreamDeltas buf texts := by
  induction texts generalizing buf with
  | nil => rfl
  | cons c cs ih =>
    simp [completionsStreamDeltas, chatStreamDeltas, completionsStreamStep, chatStreamStep, ih]

theorem chatStreamDeltas_flatten (buf : Str) (texts : List Str) (h : ExtendsFrom buf texts) :
    buf ++ (chatStreamDeltas buf texts).flatten = texts.getLastD buf := by
  induction texts generalizing buf with
  | nil => simp [chatStreamDeltas]
  | cons c cs ih =>
    obtain ⟨⟨t, ht⟩, h₂⟩ := h
    have hdrop : c.drop buf.length = t := by rw [ht]; exact List.drop_left buf t
    calc buf ++ (chatStreamDeltas buf (c :: cs)).flatten
        = (buf ++ c.drop buf.length) ++ (chatStreamDeltas c cs).flatten := by
          simp [chatStreamDeltas, chatStreamStep, List.append_assoc]
      _ = c ++ (chatStreamDeltas c cs).flatten := by rw [hdrop, ← ht]
      _ = cs.getLastD c := ih c h₂
      _ = (c :: cs).getLastD buf := by rw [List.getLastD_cons]

/-- C1 (amended). For a streamed completions request with echo disabled, and
for every streamed chat-completions request, assuming each upstream
cumulative text prefix-extends the previous one: each emitted delta equals
`current.text[len(previous.text):]` (the zipWith form, with the empty
initial buffer standing for the absent previous text), and concatenating
all emitted deltas in order yields exactly the final cumulative text. -/
theorem C1_spec (prompt : Str) (texts : List Str) (h : ExtendsFrom [] texts) :
    completionsStreamDeltas false prompt [] texts
        = List.zipWith (fun cur prev => cur.drop prev.length) texts ([] :: texts)
  ∧ (completionsStreamDeltas false prompt [] texts).flatten = texts.getLastD []
  ∧ chatStreamDeltas [] texts
        = List.zipWith (fun cur prev => cur.drop prev.length) texts ([] :: texts)
  ∧ (chatStreamDeltas [] texts).flatten = texts.getLastD [] := by
  have hjoin := chatStreamDeltas_flatten [] texts h
  simp only [List.nil_append] at hjoin
  refine ⟨?_, ?_, chatStreamDeltas_eq_zipWith [] texts, hjoin⟩
  · rw [completionsStreamDeltas_false_eq_chat]; exact chatStreamDeltas_eq_zipWith [] texts
  · rw [completionsStreamDeltas_false_eq_chat]; exact hjoin

/-- C1 witness: a concrete two-chunk stream where the theorem applies. -/
theorem C1_witness :
    ExtendsFrom [] [['a'], ['a', 'b']]
  ∧ (completionsStreamDeltas false [] [] [['a'], ['a', 'b']]).flatten
      = [['a'], ['a', 'b']].getLastD [] :=
  ⟨⟨⟨['a'], rfl⟩, ⟨['b'], rfl⟩, trivial⟩,
   (C1_spec [] [['a'], ['a', 'b']] ⟨⟨['a'], rfl⟩, ⟨['b'], rfl⟩, trivial⟩).2.1⟩

/-- C1 counterexample: with echo enabled and prompt "p", a one-chunk stream
with cumulative text "a" satisfies the prefix-extension hypothesis, yet the
emitted delta is "pa", so it differs from `current.text[len(previous.text):]`
and the concatenation of deltas differs from the final cumulative text. -/
theorem C1_counterexample :
    ExtendsFrom [] [['a']]
  ∧ completionsStreamDeltas true ['p'] [] [['a']] = [['p', 'a']]
  ∧ (completionsStreamDeltas true ['p'] [] [['a']]).flatten ≠ [['a']].getLastD []
  ∧ completionsStreamDeltas true ['p'] [] [['a']]
      ≠ List.zipWith (fun cur prev => cur.drop prev.length) [['a']] ([] :: [['a']]) :=
  ⟨⟨⟨['a'], rfl⟩, trivial⟩, by decide, by decide, by decide⟩

/-! ### API key access control (`APIKeyValidatorMiddleware.dispatch` and its
installation in `launch_server`) -/

/-- Result of running the middleware stack on one request: either a
short-circuit JSON response (status code and the `detail` field of the JSON
body), or the response of the next handler in the chain. -/
inductive DispatchResult (ρ : Type) where
  | response (status : Nat) (detail : String)
  | next (r : ρ)

/-- Python truthiness of an optional string: `None` and the empty string are
falsy. -/
def truthyStr : Option String → Bool
  | none => false
  | some s => !(s == "")

/-- Embedding of `APIKeyValidatorMiddleware.dispatch`: reads the `X-API-Key`
header (absent headers are `none`); if `not api_key_header or
api_key_header != self.api_key` it returns the fixed 403 JSON response with
detail "Invalid API Key", otherwise it awaits `call_next(request)`. -/
def APIKeyValidatorMiddleware.dispatch {ρ : Type} (api_key : String)
    (header : Option String) (call_next : Unit → ρ) : DispatchResult ρ :=
  if truthyStr header = false ∨ header ≠ some api_key then
    DispatchResult.response 403 "Invalid API Key"
  else
    DispatchResult.next (call_next ())

theorem dispatch_reject {ρ : Type} (api_key : String) (header : Option String)
    (handler : Unit → ρ) (h : header ≠ some api_key) :
    APIKeyValidatorMiddleware.dispatch api_key header handler
      = DispatchResult.response 403 "Invalid API Key" := by
  simp [APIKeyValidatorMiddleware.dispatch, h]

theorem dispatch_pass {ρ : Type} (api_key : String) (hk : api_key ≠ "")
    (handler : Unit → ρ) :
    APIKeyValidatorMiddleware.dispatch api_key (some api_key) handler
      = DispatchResult.next (handler ()) := by
  simp [APIKeyValidatorMiddleware.dispatch, truthyStr, hk]

/-- C2. When the configured key is non-empty: a request whose header is
absent or differs from the key gets exactly the 403 response with detail
"Invalid API Key", and that outcome is independent of the route handler (no
handler output appears, so no generation side effect occurs); a request
whose header matches exactly is passed through to the handler. -/
theorem C2_spec {ρ : Type} (api_key : String) (hk : api_key ≠ "")
    (header : Option String) (handler handler₂ : Unit → ρ) :
    (header ≠ some api_key →
      APIKeyValidatorMiddleware.dispatch api_key header handler
          = DispatchResult.response 403 "Invalid API Key"
      ∧ APIKeyValidatorMiddleware.dispatch api_key header handler
          = APIKeyValidatorMiddleware.dispatch api_key header handler₂)
  ∧ (header = some api_key →
      APIKeyValidatorMiddleware.dispatch api_key header handler
          = DispatchResult.next (handler ())) := by
  constructor
  · intro hne
    exact ⟨dispatch_reject api_key header handler hne,
      (dispatch_reject api_key header handler hne).trans
        (dispatch_reject api_key header handler₂ hne).symm⟩
  · intro heq
    subst heq
    exact dispatch_pass api_key hk handler

/-- C2 witness: with configured key "secret", the header "wrong" is rejected
with the fixed 403 body and the header "secret" reaches the handler. -/
theorem C2_witness :
    ("secret" : String) ≠ ""
  ∧ APIKeyValidatorMiddleware.dispatch "secret" (some "wrong") (fun _ => (0 : Nat))
      = DispatchResult.response 403 "Invalid API Key"
  ∧ APIKeyValidatorMiddleware.dispatch "secret" (some "secret") (fun _ => (0 : Nat))
      = DispatchResult.next 0 :=
  ⟨by decide,
   ((C2_spec "secret" (by decide) (some "wrong") (fun _ => 0) (fun _ => 1)).1 (by decide)).1,
   (C2_spec "secret" (by decide) (some "secret") (fun _ => 0) (fun _ => 1)).2 rfl⟩

/-! ### Request validation in `v1_completions` and `v1_chat_completions` -/

/-- Errors a request handler can end in: a raised Python `AssertionError`
(uncaught, so the request crashes with an internal server error), or a
raised `fastapi.HTTPException` with a status code and a detail string. -/
inductive HandlerError where
  | assertionError
  | httpException (status : Nat) (detail : String)
deriving DecidableEq

/-- An error is a client error when it is an HTTP error whose status code is
in the 4xx range; a raised `AssertionError` is a crash, not a client
error. -/
def isClientError : HandlerError → Bool
  | HandlerError.assertionError => false
  | HandlerError.httpException status _ => 400 ≤ status && status < 500

/-- Embedding of the `n`-validation at the top of `v1_completions`: the
source runs `assert request.n == 1`, so any other `n` raises an
`AssertionError` before the adapted `GenerateReqInput` is built. -/
def v1_completions_check_n (n : Nat) : Except HandlerError Unit :=
  if n = 1 then Except.ok () else Except.error HandlerError.assertionError

/-- Embedding of the `n`-validation at the top of `v1_chat_completions`,
which is the same `assert request.n == 1`. -/
def v1_chat_completions_check_n (n : Nat) : Except HandlerError Unit :=
  if n = 1 then Except.ok () else Except.error HandlerError.assertionError

/-- C3. At `n = 2` both handlers stop before building the generation
request, but by raising an `AssertionError` (an uncaught exception, hence a
crash of the request), not by returning a client error. -/
theorem C3_spec :
    v1_completions_check_n 2 = Except.error HandlerError.assertionError
  ∧ v1_chat_completions_check_n 2 = Except.error HandlerError.assertionError
  ∧ isClientError HandlerError.assertionError = false :=
  ⟨rfl, rfl, rfl⟩

/-! ### Chat message content validation (`v1_chat_completions`) -/

/-- Content of one chat message: either a plain Python string or structured
(non-string) content such as a list of multimodal parts. -/
inductive MessageContent where
  | textContent (s : Str)
  | structuredContent
deriving DecidableEq

/-- Python `isinstance(m.content, str)`. -/
def MessageContent.isStr : MessageContent → Bool
  | MessageContent.textContent _ => true
  | MessageContent.structuredContent => false

/-- One element of `request.messages`. -/
structure ChatMessageW where
  content : MessageContent
deriving DecidableEq

/-- The `messages` field of a chat-completions request: either a plain
string (a pre-rendered prompt) or a list of messages. -/
inductive ChatMessagesW where
  | raw (s : Str)
  | msgs (l : List ChatMessageW)

/-- The detail string of the HTTPException raised for structured content
without a configured chat template, exactly as concatenated in the
source. -/
def structured_content_error_detail : String :=
  "Structured content requests not supported with HuggingFace Chat Templates. Make sure the server specifies a sglang chat template."

/-- Embedding of the prompt/stop derivation of `v1_chat_completions`
(image handling elided; only the prompt and stop list are returned).
External collaborators are parameters: `apply_chat_template` is the
tokenizer's native template call, `conv_prompt` and `conv_stop` are the
configured-template renderer (`generate_chat_conv` plus `get_prompt` and
`stop_str`). When `messages` is a list and no chat template is configured,
the source first checks that every message content is a plain string and
raises `HTTPException(503, ...)` otherwise; only after that check does it
call `apply_chat_template`. With a configured template, template stop
strings are seeded first and the caller's stop strings are appended. -/
def v1_chat_prompt (chat_template_name : Option String)
    (apply_chat_template : List ChatMessageW → Str)
    (conv_prompt : List ChatMessageW → String → Str)
    (conv_stop : List ChatMessageW → String → List Str)
    (messages : ChatMessagesW) (request_stop : List Str) :
    Except HandlerError (Str × List Str) :=
  match messages with
  | ChatMessagesW.raw s => Except.ok (s, request_stop)
  | ChatMessagesW.msgs l =>
    match chat_template_name with
    | none =>
      if l.all (fun m => m.content.isStr) then
        Except.ok (apply_chat_template l, request_stop)
      else
        Except.error (HandlerError.httpException 503 structured_content_error_detail)
    | some name =>
      Except.ok (conv_prompt l name, conv_stop l name ++ request_stop)

/-- C4 (amended). With no configured chat template and some message content
structured, the handler stops with an HTTP exception of status 503 (a
server-error status, not a 4xx client error) whose detail references chat
template support; the outcome is independent of the tokenizer's template
function, so no tokenization is attempted, and since the result is an error
no generation request is built or dispatched. -/
theorem C4_spec (apply_chat_template apply₂ : List ChatMessageW → Str)
    (conv_prompt : List ChatMessageW → String → Str)
    (conv_stop : List ChatMessageW → String → List Str)
    (l : List ChatMessageW) (request_stop : List Str)
    (h : l.all (fun m => m.content.isStr) = false) :
    v1_chat_prompt none apply_chat_template conv_prompt conv_stop
        (ChatMessagesW.msgs l) request_stop
      = Except.error (HandlerError.httpException 503 structured_content_error_detail)
  ∧ v1_chat_prompt none apply_chat_template conv_prompt conv_stop
        (ChatMessagesW.msgs l) request_stop
      = v1_chat_prompt none apply₂ conv_prompt conv_stop
        (ChatMessagesW.msgs l) request_stop := by
  constructor <;> simp [v1_chat_prompt, h]

/-- C4 witness: a single structured-content message with no template. -/
theorem C4_witness :
    ([⟨MessageContent.structuredContent⟩] : List ChatMessageW).all
        (fun m => m.content.isStr) = false
  ∧ v1_chat_prompt none (fun _ => ['x']) (fun _ _ => []) (fun _ _ => [])
        (ChatMessagesW.msgs [⟨MessageContent.structuredContent⟩]) []
      = Except.error (HandlerError.httpException 503 structured_content_error_detail) :=
  ⟨rfl,
   (C4_spec (fun _ => ['x']) (fun _ => ['y']) (fun _ _ => []) (fun _ _ => [])
     [⟨MessageContent.structuredContent⟩] [] rfl).1⟩

/-- C4 counterexample: at that same request the raised error has status 503,
which is not in the 4xx client-error range, refuting the claim that a client
error is returned. -/
theorem C4_counterexample :
    v1_chat_prompt none (fun _ => []) (fun _ _ => []) (fun _ _ => [])
        (ChatMessagesW.msgs [⟨MessageContent.structuredContent⟩]) []
      = Except.error (HandlerError.httpException 503 structured_content_error_detail)
  ∧ isClientError (HandlerError.httpException 503 structured_content_error_detail) = false :=
  ⟨rfl, rfl⟩

/-! ### Logprob/detokenization bridge (`detokenize_logprob_tokens`,
`detokenize_top_logprobs_tokens`)

The external detokenizer (`tokenizer_manager.detokenize`) is passed in as a
function `detok` from a batch of token ids to the corresponding texts, and
each embedding additionally returns the list of detokenize calls issued, in
order, so that the number and shape of cross-process calls is visible. -/

/-- Embedding of `detokenize_logprob_tokens`: on `decode_to_text = false` it
returns the records unchanged, each extended with an absent `token_text`,
making no detokenize call; otherwise it gathers all token ids, makes one
batched detokenize call, and zips the returned texts back positionally. -/
def detokenize_logprob_tokens {α : Type} (detok : List Nat → List String)
    (token_logprobs : List (α × Nat)) (decode_to_text : Bool) :
    List (α × Nat × Option String) × List (List Nat) :=
  if decode_to_text = false then
    (token_logprobs.map (fun p => (p.1, p.2, none)), [])
  else
    let token_ids := token_logprobs.map (fun p => p.2)
    let token_texts := detok token_ids
    ((token_logprobs.zip token_texts).map (fun q => (q.1.1, q.1.2, some q.2)), [token_ids])

/-- Embedding of `detokenize_top_logprobs_tokens`: each top-k slot that is
present is rewritten through `detokenize_logprob_tokens`; absent (`None`)
slots pass through unchanged and cause no detokenize call. -/
def detokenize_top_logprobs_tokens {α : Type} (detok : List Nat → List String)
    (top_logprobs : List (Option (List (α × Nat)))) (decode_to_text : Bool) :
    List (Option (List (α × Nat × Option String))) × List (List Nat) :=
  match top_logprobs with
  | [] => ([], [])
  | none :: rest =>
    let r := detokenize_top_logprobs_tokens detok rest decode_to_text
    (none :: r.1, r.2)
  | some t :: rest =>
    let d := detokenize_logprob_tokens detok t decode_to_text
    let r := detokenize_top_logprobs_tokens detok rest decode_to_text
    (some d.1 :: r.1, d.2 ++ r.2)

theorem zip_map_some_eq_zipWith {α : Type} (l : List (α × Nat)) (ts : List String) :
    (l.zip ts).map (fun q => (q.1.1, q.1.2, some q.2))
      = List.zipWith (fun p t => (p.1, p.2, some t)) l ts := by
  induction l generalizing ts with
  | nil => rfl
  | cons p ps ih => cases ts with
    | nil => rfl
    | cons t ts => simp [ih]

theorem map_back_zipWith_some {α : Type} (l : List (α × Nat)) (ts : List String)
    (h : l.length ≤ ts.length) :
    (List.zipWith (fun p t => (p.1, p.2, some t)) l ts).map (fun r => (r.1, r.2.1)) = l := by
  induction l generalizing ts with
  | nil => rfl
  | cons p ps ih => cases ts with
    | nil => simp at h
    | cons t ts =>
      simp only [List.length_cons, Nat.add_le_add_iff_right] at h
      simp [ih ts h]

/-- C5. Conjunction of the claimed facts: with `decode_to_text = false` the
records come back unchanged in order with an absent text and no detokenize
call is made; with `decode_to_text = true` exactly one batched call carrying
all token ids in input order is made, the texts are zipped back
positionally, and (given that the detokenizer answers one text per id) the
logprob/id parts of the output are exactly the input, never reordered; the
top-k variant applies the same transform slot by slot, passing absent slots
through as absent. -/
theorem C5_spec {α : Type} (detok : List Nat → List String)
    (recs : List (α × Nat)) (top : List (Option (List (α × Nat))))
    (hlen : (detok (recs.map (fun p => p.2))).length = recs.length) :
    detokenize_logprob_tokens detok recs false
        = (recs.map (fun p => (p.1, p.2, (none : Option String))), [])
  ∧ (detokenize_logprob_tokens detok recs true).2 = [recs.map (fun p => p.2)]
  ∧ (detokenize_logprob_tokens detok recs true).1
        = List.zipWith (fun p t => (p.1, p.2, some t)) recs (detok (recs.map (fun p => p.2)))
  ∧ ((detokenize_logprob_tokens detok recs true).1).map (fun r => (r.1, r.2.1)) = recs
  ∧ (detokenize_top_logprobs_tokens detok top false).1
        = top.map (Option.map (fun t => t.map (fun p => (p.1, p.2, (none : Option String)))))
  ∧ (detokenize_top_logprobs_tokens detok top false).2 = []
  ∧ (detokenize_top_logprobs_tokens detok top true).1
        = top.map (Option.map (fun t => (detokenize_logprob_tokens detok t true).1)) := by
  have h3 : (detokenize_logprob_tokens detok recs true).1
      = List.zipWith (fun p t => (p.1, p.2, some t)) recs (detok (recs.map (fun p => p.2))) := by
    simp [detokenize_logprob_tokens, zip_map_some_eq_zipWith]
  refine ⟨rfl, rfl, h3, ?_, ?_, ?_, ?_⟩
  · rw [h3]
    exact map_back_zipWith_some recs _ (le_of_eq hlen.symm)
  · induction top with
    | nil => rfl
    | cons o rest ih => cases o <;>
        simp [detokenize_top_logprobs_tokens, detokenize_logprob_tokens, ih]
  · induction top with
    | nil => rfl
    | cons o rest ih => cases o <;>
        simp [detokenize_top_logprobs_tokens, detokenize_logprob_tokens, ih]
  · induction top with
    | nil => rfl
    | cons o rest ih => cases o <;> simp [detokenize_top_logprobs_tokens, ih]

/-- C5 witness: two records and a detokenizer answering one text per id. -/
theorem C5_witness :
    ((fun (ids : List Nat) => ids.map (fun _ => "a"))
        ([((1 : Int), 10), (2, 20)].map (fun p => p.2))).length
        = [((1 : Int), 10), (2, 20)].length
  ∧ (detokenize_logprob_tokens (fun (ids : List Nat) => ids.map (fun _ => "a"))
        [((1 : Int), 10), (2, 20)] true).1
      = List.zipWith (fun p t => (p.1, p.2, some t)) [((1 : Int), 10), (2, 20)]
          ((fun (ids : List Nat) => ids.map (fun _ => "a"))
            ([((1 : Int), 10), (2, 20)].map (fun p => p.2))) :=
  ⟨rfl,
   (C5_spec (fun (ids : List Nat) => ids.map (fun _ => "a"))
     [((1 : Int), 10), (2, 20)] [] rfl).2.2.1⟩

/-! ### Worker readiness handshake in `launch_server`

After spawning the router and detokenizer processes, `launch_server` does a
blocking `recv()` on each readiness pipe (router first, then detokenizer; it
always waits for both, so the order of arrival is irrelevant), and if either
received payload differs from the literal string "init ok" it kills both
processes, prints both states, and calls `sys.exit(1)`. The `recv()` carries
no timeout, so a channel that never yields a message is modelled as `none`
and the blocked launch as a `none` result. -/

/-- Outcome of the readiness check: either the supervisor exits (recording
which worker processes were killed, the lines printed, and the exit code) or
it proceeds to serve. -/
inductive LaunchCheck where
  | exit (killed_router killed_detoken : Bool) (printed : List String) (code : Nat)
  | proceed
deriving DecidableEq

/-- Embedding of the readiness wait of `launch_server`: `none` for a channel
message means the message never arrives, in which case `recv()` blocks
forever and the whole launch blocks (result `none`). -/
def launch_wait (router_msg detoken_msg : Option String) : Option LaunchCheck :=
  match router_msg, detoken_msg with
  | some r, some d =>
    if r ≠ "init ok" ∨ d ≠ "init ok" then
      some (LaunchCheck.exit true true
        ["router init state: " ++ r, "detoken init state: " ++ d] 1)
    else
      some LaunchCheck.proceed
  | _, _ => none

/-- C6 (amended). When both channels deliver a payload, the launch proceeds
exactly when both payloads are the literal "init ok"; otherwise it kills
both worker processes, prints both reported states, and exits with the
non-zero status 1. (There is no timeout: a channel that never yields makes
the launch block instead, see the counterexample.) -/
theorem C6_spec (r d : String) :
    (launch_wait (some r) (some d) = some LaunchCheck.proceed
        ↔ (r = "init ok" ∧ d = "init ok"))
  ∧ (¬(r = "init ok" ∧ d = "init ok") →
      launch_wait (some r) (some d)
        = some (LaunchCheck.exit true true
            ["router init state: " ++ r, "detoken init state: " ++ d] 1))
  ∧ (1 : Nat) ≠ 0 := by
  refine ⟨?_, ?_, one_ne_zero⟩
  · by_cases h : r = "init ok" ∧ d = "init ok"
    · simp [launch_wait, h.1, h.2]
    · have h₂ : ¬r = "init ok" ∨ ¬d = "init ok" := not_and_or.mp h
      simp only [launch_wait, if_pos h₂]
      exact iff_of_false (by simp) h
  · intro h
    have h₂ : ¬r = "init ok" ∨ ¬d = "init ok" := not_and_or.mp h
    simp [launch_wait, if_pos h₂]

/-- C6 witness: a failed router handshake with a successful detokenizer
handshake kills both and exits 1. -/
theorem C6_witness :
    ¬(("bad" : String) = "init ok" ∧ ("init ok" : String) = "init ok")
  ∧ launch_wait (some "bad") (some "init ok")
      = some (LaunchCheck.exit true true
          ["router init state: " ++ "bad", "detoken init state: " ++ "init ok"] 1) :=
  ⟨by decide, (C6_spec "bad" "init ok").2.1 (by decide)⟩

/-- C6 counterexample: if the router channel never yields a message, the
launch blocks on `recv()` forever (no timeout exists), so no kill, no
printing and no process exit ever happen, refuting the claimed
timeout-handling behaviour. -/
theorem C6_counterexample : launch_wait none (some "init ok") = none := rfl

/-! ### OpenAI-style logprob assembly (`make_openai_style_logprobs`) -/

/-- The `LogProbs` pydantic model: four lists, initially empty. Each
`top_logprobs` entry is either absent or the dict mapping token text to
logprob, modelled as the association list in insertion order. -/
structure LogProbs (α : Type) where
  text_offset : List Int
  token_logprobs : List α
  tokens : List (Option String)
  top_logprobs : List (Option (List (Option String × α)))
deriving DecidableEq

/-- Embedding of the inner `append_token_logprobs` helper: for each record
`(logprob, _, token_text)` it appends `token_text` to `tokens`, `logprob` to
`token_logprobs`, and the unsupported-placeholder `-1` to `text_offset`. -/
def append_token_logprobs {α : Type} (acc : LogProbs α)
    (token_logprobs : List (α × Nat × Option String)) : LogProbs α :=
  token_logprobs.foldl
    (fun acc t =>
      { acc with
        tokens := acc.tokens ++ [t.2.2]
        token_logprobs := acc.token_logprobs ++ [t.1]
        text_offset := acc.text_offset ++ [(-1 : Int)] })
    acc

/-- Embedding of the inner `append_top_logprobs` helper: a present slot
becomes the dict from token text to logprob, an absent slot is appended as
absent. -/
def append_top_logprobs {α : Type} (acc : LogProbs α)
    (top_logprobs : List (Option (List (α × Nat × Option String)))) : LogProbs α :=
  top_logprobs.foldl
    (fun acc o =>
      match o with
      | some tokens =>
        { acc with top_logprobs :=
            acc.top_logprobs ++ [some (tokens.map (fun t => (t.2.2, t.1)))] }
      | none => { acc with top_logprobs := acc.top_logprobs ++ [none] })
    acc

/-- Embedding of `make_openai_style_logprobs`: starting from an empty
`LogProbs`, the four optional inputs are appended in the fixed order
prefill-token, decode-token, prefill-top, decode-top. -/
def make_openai_style_logprobs {α : Type}
    (prefill_token_logprobs decode_token_logprobs :
        Option (List (α × Nat × Option String)))
    (prefill_top_logprobs decode_top_logprobs :
        Option (List (Option (List (α × Nat × Option String))))) : LogProbs α :=
  let ret0 : LogProbs α := ⟨[], [], [], []⟩
  let ret1 := match prefill_token_logprobs with
    | some l => append_token_logprobs ret0 l
    | none => ret0
  let ret2 := match decode_token_logprobs with
    | some l => append_token_logprobs ret1 l
    | none => ret1
  let ret3 := match prefill_top_logprobs with
    | some l => append_top_logprobs ret2 l
    | none => ret2
  match decode_top_logprobs with
  | some l => append_top_logprobs ret3 l
  | none => ret3

theorem append_token_logprobs_spec {α : Type} (l : List (α × Nat × Option String))
    (acc : LogProbs α) :
    append_token_logprobs acc l =
      ⟨acc.text_offset ++ List.replicate l.length (-1 : Int),
       acc.token_logprobs ++ l.map (fun t => t.1),
       acc.tokens ++ l.map (fun t => t.2.2),
       acc.top_logprobs⟩ := by
  induction l generalizing acc with
  | nil => simp [append_token_logprobs]
  | cons t ts ih =>
    rw [append_token_logprobs, List.foldl_cons, ← append_token_logprobs, ih]
    simp [List.replicate_succ, List.append_assoc]

theorem append_top_logprobs_spec {α : Type}
    (l : List (Option (List (α × Nat × Option String)))) (acc : LogProbs α) :
    append_top_logprobs acc l =
      ⟨acc.text_offset, acc.token_logprobs, acc.tokens,
       acc.top_logprobs
         ++ l.map (Option.map (fun tokens => tokens.map (fun t => (t.2.2, t.1))))⟩ := by
  induction l generalizing acc with
  | nil => simp [append_top_logprobs]
  | cons o os ih =>
    rw [append_top_logprobs, List.foldl_cons, ← append_top_logprobs]
    cases o with
    | none => rw [ih]; simp [List.append_assoc]
    | some tokens => rw [ih]; simp [List.append_assoc]

/-- C7. Closed form of `make_openai_style_logprobs`: it is a pure assembly
of the zero-to-four optional inputs, with token-level records appended in
the order prefill-token then decode-token (driving `tokens`,
`token_logprobs` and `text_offset`), top-level records appended in the
order prefill-top then decode-top (driving `top_logprobs`), and
`text_offset` consisting solely of the unsupported-placeholder `-1`, one per
token record, never computed from any text. -/
theorem C7_spec {α : Type}
    (pt dt : Option (List (α × Nat × Option String)))
    (ptop dtop : Option (List (Option (List (α × Nat × Option String))))) :
    make_openai_style_logprobs pt dt ptop dtop =
      { text_offset := List.replicate (pt.getD [] ++ dt.getD []).length (-1 : Int)
        token_logprobs := (pt.getD [] ++ dt.getD []).map (fun t => t.1)
        tokens := (pt.getD [] ++ dt.getD []).map (fun t => t.2.2)
        top_logprobs := (ptop.getD [] ++ dtop.getD []).map
          (Option.map (fun tokens => tokens.map (fun t => (t.2.2, t.1)))) } := by
  have hstage : make_openai_style_logprobs pt dt ptop dtop
      = append_top_logprobs
          (append_top_logprobs
            (append_token_logprobs
              (append_token_logprobs ⟨[], [], [], []⟩ (pt.getD []))
              (dt.getD []))
            (ptop.getD []))
          (dtop.getD []) := by
    cases pt <;> cases dt <;> cases ptop <;> cases dtop <;> rfl
  rw [hstage, append_token_logprobs_spec, append_token_logprobs_spec,
    append_top_logprobs_spec, append_top_logprobs_spec]
  simp only [List.nil_append, List.length_append, List.replicate_add,
    List.map_append, List.append_assoc]

/-! ### Process teardown (`Runtime.shutdown`)

The calls `Runtime.shutdown` makes against the operating system are recorded
as a trace of actions. Looking up the supervised process
(`psutil.Process(self.pid)`) and enumerating its descendants
(`parent.children(recursive=True)`) are reads of an explicit process-table
environment; `kill` (SIGKILL), `wait_procs` and `wait` become trace
entries. `terminate` (SIGTERM, a graceful termination request) is included
in the action type so that its absence from every emitted trace is
expressible; the source never calls it. -/

/-- Actions `Runtime.shutdown` can request from the operating system. -/
inductive ProcAction where
  | kill (pid : Nat)
  | terminate (pid : Nat)
  | wait_procs (pids : List Nat) (timeout : Nat)
  | wait (pid : Nat) (timeout : Nat)
deriving DecidableEq

/-- Is the action a graceful termination request (SIGTERM)? -/
def ProcAction.isTerminateReq : ProcAction → Bool
  | ProcAction.terminate _ => true
  | _ => false

/-- The process table: whether a pid exists (`psutil.Process` raises
`NoSuchProcess` otherwise) and the recursive descendants of a pid. -/
structure ProcEnv where
  exists_pid : Nat → Bool
  descendants : Nat → List Nat

/-- Embedding of `Runtime.shutdown`. State is `self.pid : Option Nat`; the
result is the new `self.pid` together with the trace of requested actions.
If `self.pid` is `None` the body is skipped; if the process no longer
exists, the `NoSuchProcess` handler returns immediately (without clearing
`self.pid`); otherwise every recursive descendant is killed (SIGKILL),
`wait_procs` waits up to 5 seconds for them, the parent is killed, waited on
for up to 5 seconds, and `self.pid` is cleared. -/
def Runtime.shutdown (env : ProcEnv) (pid : Option Nat) : Option Nat × List ProcAction :=
  match pid with
  | none => (none, [])
  | some p =>
    if env.exists_pid p = false then
      (some p, [])
    else
      let children := env.descendants p
      (none,
        children.map ProcAction.kill
          ++ [ProcAction.wait_procs children 5, ProcAction.kill p, ProcAction.wait p 5])

/-- C8 (amended). `Runtime.shutdown` is idempotent and safe when the target
is already gone: a second call leaves the state unchanged and requests no
action, a call on a nonexistent process returns normally having requested no
action, and a call on a live process kills (SIGKILL, with no prior graceful
termination request) every recursive descendant, waits up to 5 seconds for
them, then kills and waits on the parent. -/
theorem C8_spec (env : ProcEnv) (pid : Option Nat) :
    (Runtime.shutdown env (Runtime.shutdown env pid).1).1 = (Runtime.shutdown env pid).1
  ∧ (Runtime.shutdown env (Runtime.shutdown env pid).1).2 = []
  ∧ (∀ p, pid = some p → env.exists_pid p = false →
      Runtime.shutdown env pid = (some p, []))
  ∧ (∀ p, pid = some p → env.exists_pid p = true →
      Runtime.shutdown env pid =
        (none, (env.descendants p).map ProcAction.kill
          ++ [ProcAction.wait_procs (env.descendants p) 5,
              ProcAction.kill p, ProcAction.wait p 5])) := by
  have hdead : ∀ p, env.exists_pid p = false →
      Runtime.shutdown env (some p) = (some p, []) := by
    intro p h; simp [Runtime.shutdown, h]
  have hlive : ∀ p, env.exists_pid p = true →
      Runtime.shutdown env (some p) =
        (none, (env.descendants p).map ProcAction.kill
          ++ [ProcAction.wait_procs (env.descendants p) 5,
              ProcAction.kill p, ProcAction.wait p 5]) := by
    intro p h; simp [Runtime.shutdown, h]
  refine ⟨?_, ?_, ?_, ?_⟩
  · cases pid with
    | none => rfl
    | some p =>
      cases h : env.exists_pid p with
      | false => rw [hdead p h, hdead p h]
      | true => rw [hlive p h]; rfl
  · cases pid with
    | none => rfl
    | some p =>
      cases h : env.exists_pid p with
      | false => rw [hdead p h, hdead p h]
      | true => rw [hlive p h]; rfl
  · intro p hp h; cases hp; exact hdead p h
  · intro p hp h; cases hp; exact hlive p h

/-- C8 witness: shutting down a handle whose process is already gone returns
normally with no action, and a repeated call requests nothing. -/
theorem C8_witness :
    Runtime.shutdown ⟨fun _ => false, fun _ => []⟩ (some 7) = (some 7, [])
  ∧ (Runtime.shutdown ⟨fun _ => false, fun _ => []⟩
      (Runtime.shutdown ⟨fun _ => false, fun _ => []⟩ (some 7)).1).2 = [] :=
  ⟨(C8_spec ⟨fun _ => false, fun _ => []⟩ (some 7)).2.2.1 7 rfl rfl,
   (C8_spec ⟨fun _ => false, fun _ => []⟩ (some 7)).2.1⟩

/-- C8 counterexample: on a live process 1 with descendants 2 and 3, the
emitted trace kills everything outright and contains no graceful
termination request at all, refuting the claimed
terminate-then-wait-then-force-kill sequence. -/
theorem C8_counterexample :
    (Runtime.shutdown ⟨fun _ => true, fun p => if p = 1 then [2, 3] else []⟩ (some 1)).2
      = [ProcAction.kill 2, ProcAction.kill 3, ProcAction.wait_procs [2, 3] 5,
         ProcAction.kill 1, ProcAction.wait 1 5]
  ∧ ((Runtime.shutdown ⟨fun _ => true, fun p => if p = 1 then [2, 3] else []⟩
        (some 1)).2).all (fun a => !a.isTerminateReq) = true :=
  ⟨rfl, rfl⟩

/-! ### Middleware installation (`launch_server`) composed with dispatch -/

/-- Embedding of the installation condition in `launch_server`:
`if server_args.api_key and server_args.api_key != ""` — the middleware is
added only for a truthy (present, non-empty) configured key. -/
def middleware_installed (api_key : Option String) : Bool :=
  truthyStr api_key && (api_key != some "")

/-- The request path composed from launch-time configuration: when the
middleware was installed it runs
`APIKeyValidatorMiddleware.dispatch`, otherwise the request goes straight to
the route handler. -/
def serve {ρ : Type} (api_key : Option String) (header : Option String)
    (handler : Unit → ρ) : DispatchResult ρ :=
  if middleware_installed api_key = true then
    APIKeyValidatorMiddleware.dispatch (api_key.getD "") header handler
  else
    DispatchResult.next (handler ())

/-- C9. A request gets the 403 Invalid-API-Key response exactly when the
configured key is a present non-empty string and the header is not exactly
that key (absent, empty and wrong headers are all covered by the
disequality, since the key itself is non-empty); when the configured key is
absent or empty the middleware is never installed and every request reaches
the handler unchecked. -/
theorem C9_spec {ρ : Type} (api_key header : Option String) (handler : Unit → ρ) :
    (serve api_key header handler = DispatchResult.response 403 "Invalid API Key"
        ↔ ∃ k, api_key = some k ∧ k ≠ "" ∧ header ≠ some k)
  ∧ ((api_key = none ∨ api_key = some "") →
      middleware_installed api_key = false
      ∧ serve api_key header handler = DispatchResult.next (handler ())) := by
  constructor
  · cases api_key with
    | none =>
      simp [serve, middleware_installed, truthyStr]
    | some k =>
      by_cases hk : k = ""
      · subst hk
        simp [serve, middleware_installed, truthyStr]
      · have hinst : middleware_installed (some k) = true := by
          simp [middleware_installed, truthyStr, hk]
        by_cases hh : header = some k
        · subst hh
          rw [serve, if_pos hinst]
          have := dispatch_pass k hk handler
          simp only [Option.getD_some, this]
          constructor
          · intro hcontra; cases hcontra
          · rintro ⟨k₂, hk₂, _, hne⟩
            cases hk₂
            exact absurd rfl hne
        · rw [serve, if_pos hinst]
          have := dispatch_reject k header handler hh
          simp only [Option.getD_some, this]
          constructor
          · intro _; exact ⟨k, rfl, hk, hh⟩
          · intro _; trivial
  · intro h
    have hinst : middleware_installed api_key = false := by
      rcases h with h | h <;> subst h <;> simp [middleware_installed, truthyStr]
    exact ⟨hinst, by rw [serve, if_neg (by rw [hinst]; exact Bool.false_ne_true)]⟩

/-- C9 witness: with an empty configured key the middleware is not installed
and the request reaches the handler. -/
theorem C9_witness :
    middleware_installed (some "") = false
  ∧ serve (some "") (some "anything") (fun _ => true) = DispatchResult.next true :=
  (C9_spec (some "") (some "anything") (fun _ => true)).2 (Or.inr rfl)

/-! ### Non-streaming `v1_completions` with a list-of-strings prompt

When `request.prompt` is a list, the adapted `GenerateReqInput` has a list
`text`, so the backend returns one result dict per prompt. The handler then
runs `ret = ret[0] if isinstance(ret, list) else ret` and builds a single
choice from that first result; results of the remaining prompts never
appear in the response. Note that if `request.echo` is set the source runs
`text = request.prompt + text`, and for a list-valued `request.prompt` and a
string `text` Python raises `TypeError: can only concatenate list (not
str) to list`, so no response is built at all in that case. -/

/-- Python exceptions a handler body can raise besides HTTP ones. -/
inductive PyError where
  | typeError
deriving DecidableEq

/-- The `meta_info` dict of one backend result. -/
structure GenMeta where
  id : String
  prompt_tokens : Nat
  completion_tokens : Nat
  prefill_token_logprobs : List (Int × Nat × Option String)
  decode_token_logprobs : List (Int × Nat × Option String)
  prefill_top_logprobs : List (Option (List (Int × Nat × Option String)))
  decode_top_logprobs : List (Option (List (Int × Nat × Option String)))
deriving DecidableEq

/-- One backend result dict: cumulative text plus `meta_info`. -/
structure GenResult where
  text : Str
  meta_info : GenMeta
deriving DecidableEq

/-- A `CompletionResponseChoice`. -/
structure CompletionResponseChoiceW where
  index : Nat
  text : Str
  logprobs : Option (LogProbs Int)
deriving DecidableEq

/-- A `CompletionResponse` (the fields the handler fills). -/
structure CompletionResponseW where
  id : String
  choices : List CompletionResponseChoiceW
  prompt_tokens : Nat
  completion_tokens : Nat
  total_tokens : Nat
deriving DecidableEq

/-- Embedding of the non-streaming tail of `v1_completions` for a request
whose prompt is a list of strings, in which case the backend result `rets`
is a list (assumed non-empty; the backend yields one result per prompt).
The handler takes `rets[0]`, prepends the prompt when `echo` is set — which
for a list prompt raises `TypeError` — and otherwise builds a single choice
(index 0, decode logprobs only, since `echo` is off on the non-error path)
and the usage counters from that first result alone. -/
def v1_completions_nonstream_list (echo want_logprobs : Bool)
    (rets : List GenResult) (h : rets ≠ []) : Except PyError CompletionResponseW :=
  let ret := rets.head h
  if echo = true then
    Except.error PyError.typeError
  else
    let logprobs :=
      if want_logprobs = true then
        some (make_openai_style_logprobs none (some ret.meta_info.decode_token_logprobs)
          none (some ret.meta_info.decode_top_logprobs))
      else none
    Except.ok
      { id := ret.meta_info.id
        choices := [{ index := 0, text := ret.text, logprobs := logprobs }]
        prompt_tokens := ret.meta_info.prompt_tokens
        completion_tokens := ret.meta_info.completion_tokens
        total_tokens := ret.meta_info.prompt_tokens + ret.meta_info.completion_tokens }

/-- C10 (amended). For a non-streaming list-prompt completions request
without echo, the handler returns a response whose single choice and usage
counters are built from the first backend result only: any two backend
result lists with the same first element produce identical responses, so
the results for the remaining prompts are silently discarded. (With echo
set, the handler instead raises a TypeError, see the counterexample.) -/
theorem C10_spec (want_logprobs : Bool) (rets rets₂ : List GenResult)
    (h : rets ≠ []) (h₂ : rets₂ ≠ []) (hhead : rets.head h = rets₂.head h₂) :
    v1_completions_nonstream_list false want_logprobs rets h
      = v1_completions_nonstream_list false want_logprobs rets₂ h₂
  ∧ ∃ resp, v1_completions_nonstream_list false want_logprobs rets h = Except.ok resp
      ∧ resp.choices.length = 1
      ∧ resp.id = (rets.head h).meta_info.id
      ∧ resp.choices.map (fun c => c.text) = [(rets.head h).text]
      ∧ resp.total_tokens
          = (rets.head h).meta_info.prompt_tokens
            + (rets.head h).meta_info.completion_tokens := by
  constructor
  · unfold v1_completions_nonstream_list
    rw [hhead]
  · exact ⟨_, rfl, rfl, rfl, rfl, rfl⟩

/-- A concrete backend result used in the C10 witness and counterexample. -/
def sampleGenResult : GenResult :=
  { text := ['h', 'i']
    meta_info :=
      { id := "req0"
        prompt_tokens := 3
        completion_tokens := 2
        prefill_token_logprobs := []
        decode_token_logprobs := []
        prefill_top_logprobs := []
        decode_top_logprobs := [] } }

/-- A second, different backend result standing for a discarded prompt. -/
def sampleGenResult₂ : GenResult :=
  { text := ['y', 'o']
    meta_info :=
      { id := "req1"
        prompt_tokens := 4
        completion_tokens := 5
        prefill_token_logprobs := []
        decode_token_logprobs := []
        prefill_top_logprobs := []
        decode_top_logprobs := [] } }

/-- C10 witness: a two-result backend list gives the same response as the
singleton list holding only its first element. -/
theorem C10_witness :
    v1_completions_nonstream_list false false [sampleGenResult, sampleGenResult₂]
        (List.cons_ne_nil _ _)
      = v1_completions_nonstream_list false false [sampleGenResult]
        (List.cons_ne_nil _ _) :=
  (C10_spec false [sampleGenResult, sampleGenResult₂] [sampleGenResult]
    (List.cons_ne_nil _ _) (List.cons_ne_nil _ _) rfl).1

/-- C10 counterexample: with echo requested (and still a list prompt), the
handler raises a TypeError instead of returning a response, so not every
non-streaming list-prompt request yields a one-choice response. -/
theorem C10_counterexample :
    v1_completions_nonstream_list true false [sampleGenResult, sampleGenResult₂]
        (List.cons_ne_nil _ _)
      = Except.error PyError.typeError := rfl

end SGLang
